import Mathlib

/-!
Shallow embedding of the `demo_ntp` NTP client core:
`src/types.rs` (field value types), `src/codec.rs` (byte codec),
`src/ntp_message_protocol.rs` (48-byte packet header codec) and
`src/client.rs` (the exchange entry point `NtpClient::get_offset`).

Byte buffers are modelled as `List Nat`, each element standing for one `u8`
(so well-formed buffers have all elements `< 256`).  Rust `Result` is
`Except String` (the source uses `&'static str` errors), and a Rust panic
(out-of-bounds index, `unwrap` on an error, `todo!()`) is modelled by a
dedicated outcome constructor, since a panicking operation returns nothing.
-/

set_option maxRecDepth 10000

namespace DemoNtp

/-- `types.rs`: `pub struct Leap(u8)` — its `u8` payload as a `Nat`. -/
structure Leap where
  val : Nat
deriving DecidableEq, Repr

/-- `types.rs`: `impl TryFrom<u8> for Leap` — fails above 3. -/
def Leap.try_from (value : Nat) : Except String Leap :=
  if value > 3 then .error "Value out of range for leap"
  else .ok ⟨value⟩

def NTP_LEAP_NO_WARNING : Leap := ⟨0⟩

/-- `types.rs`: `pub struct Version(u8)`. -/
structure Version where
  val : Nat
deriving DecidableEq, Repr

/-- `types.rs`: `impl TryFrom<u8> for Version` — fails above 7. -/
def Version.try_from (value : Nat) : Except String Version :=
  if value > 7 then .error "Value out of range for version"
  else .ok ⟨value⟩

def NTP_VERSION_4 : Version := ⟨4⟩

/-- `types.rs`: `pub struct Mode(u8)`. -/
structure Mode where
  val : Nat
deriving DecidableEq, Repr

/-- `types.rs`: `impl TryFrom<u8> for Mode` — fails above 7. -/
def Mode.try_from (value : Nat) : Except String Mode :=
  if value > 7 then .error "Value out of range for mode"
  else .ok ⟨value⟩

def NTP_MODE_CLIENT : Mode := ⟨3⟩

/-- `types.rs`: `pub struct Stratum(u8)` — unconditional `From<u8>`. -/
structure Stratum where
  val : Nat
deriving DecidableEq, Repr

def Stratum.fromU8 (value : Nat) : Stratum := ⟨value⟩

/-- `types.rs`: `pub struct Poll(i8)` — the `i8` payload as an `Int`. -/
structure Poll where
  val : Int
deriving DecidableEq, Repr

def Poll.fromI8 (value : Int) : Poll := ⟨value⟩

/-- `types.rs`: `pub struct Precision(i8)`. -/
structure Precision where
  val : Int
deriving DecidableEq, Repr

def Precision.fromI8 (value : Int) : Precision := ⟨value⟩

/-- `types.rs`: `pub struct RefId([u8; 4])` — four raw bytes. -/
structure RefId where
  val : List Nat
deriving DecidableEq, Repr

def RefId.fromBytes (value : List Nat) : RefId := ⟨value⟩

/-- `types.rs`: `pub struct NtpShort(u32)` — the packed `u32` payload. -/
structure NtpShort where
  val : Nat
deriving DecidableEq, Repr

/-- `types.rs`: `NtpShort::new(seconds: u16, fraction: u16)` packs
`((seconds as u32) << 16) | (fraction as u32)`; the `% 65536` make the
16-bit width of the two parameters explicit. -/
def NtpShort.new (seconds fraction : Nat) : NtpShort :=
  ⟨((seconds % 65536) <<< 16) ||| (fraction % 65536)⟩

/-- `types.rs`: `pub struct NtpTimestamp(u64)` — the packed `u64` payload. -/
structure NtpTimestamp where
  val : Nat
deriving DecidableEq, Repr

/-- `types.rs`: `NtpTimestamp::new(seconds: u32, fraction: u32)` packs
`((seconds as u64) << 32) | (fraction as u64)`. -/
def NtpTimestamp.new (seconds fraction : Nat) : NtpTimestamp :=
  ⟨((seconds % 4294967296) <<< 32) ||| (fraction % 4294967296)⟩

deriving instance DecidableEq for Except

/-! ### `codec.rs`: the byte codec

Write operations can succeed (returning the updated buffer and the reported
byte count), fail with an error string, or panic on an out-of-bounds index —
the third outcome is reachable in the source (`impl TryWriteToBytes for u64`
guards `bytes.len() < 4` but stores `bytes[0]` through `bytes[7]`). -/

inductive WriteResult where
  | ok : List Nat → Nat → WriteResult
  | error : String → WriteResult
  | panic : WriteResult
deriving DecidableEq, Repr

/-- Rust `v.to_be_bytes()` restricted to the low `k` bytes: big-endian list
`[(v >> 8*(k-1)) % 256, …, v % 256]`. -/
def beBytes : Nat → Nat → List Nat
  | 0, _ => []
  | k + 1, v => ((v >>> (8 * k)) % 256) :: beBytes k v

/-- Rust `from_be_bytes`: the value of a big-endian byte list. -/
def beFold : List Nat → Nat
  | [] => 0
  | b :: l => (b % 256) * 256 ^ l.length + beFold l

/-- The index-assignment sequence `bytes[0] = e₀; bytes[1] = e₁; …` of the
primitive writers; `none` models the panic raised by the first out-of-bounds
index when the buffer is shorter than the emitted byte list. -/
def writeBytesAt : List Nat → List Nat → Option (List Nat)
  | [], bytes => some bytes
  | _ :: _, [] => none
  | e :: es, _ :: bs => (writeBytesAt es bs).map (fun r => e :: r)

/-- Rust `as u8` applied to an `i8` value (bit-preserving two's-complement cast). -/
def i8AsByte (v : Int) : Nat := (v % 256).toNat

/-- Rust `as i8` applied to a `u8` value. -/
def byteAsI8 (b : Nat) : Int :=
  if b % 256 < 128 then ((b % 256 : Nat) : Int) else ((b % 256 : Nat) : Int) - 256

/-- Rust two's-complement reading of a `u32` bit pattern as an `i32`. -/
def i32OfBits (n : Nat) : Int :=
  if n % 4294967296 < 2147483648 then ((n % 4294967296 : Nat) : Int)
  else ((n % 4294967296 : Nat) : Int) - 4294967296

/-- `codec.rs`: `impl TryWriteToBytes for u8`. -/
def u8_try_write_to_bytes (v : Nat) (bytes : List Nat) : WriteResult :=
  if bytes.length < 1 then .error "Buffer too small"
  else match writeBytesAt (beBytes 1 v) bytes with
    | some b => .ok b 1
    | none => .panic

/-- `codec.rs`: `impl TryReadFromBytes for u8`. -/
def u8_try_read_from_bytes (bytes : List Nat) : Except String (Nat × Nat) :=
  if bytes.length < 1 then .error "Buffer too small"
  else .ok (beFold (bytes.take 1), 1)

/-- `codec.rs`: `impl TryWriteToBytes for i8` (`bytes[0] = *self as u8`). -/
def i8_try_write_to_bytes (v : Int) (bytes : List Nat) : WriteResult :=
  if bytes.length < 1 then .error "Buffer too small"
  else match writeBytesAt (beBytes 1 (i8AsByte v)) bytes with
    | some b => .ok b 1
    | none => .panic

/-- `codec.rs`: `impl TryReadFromBytes for i8` (`bytes[0] as i8`). -/
def i8_try_read_from_bytes (bytes : List Nat) : Except String (Int × Nat) :=
  if bytes.length < 1 then .error "Buffer too small"
  else .ok (byteAsI8 (beFold (bytes.take 1)), 1)

/-- `codec.rs`: `impl TryWriteToBytes for u16`. -/
def u16_try_write_to_bytes (v : Nat) (bytes : List Nat) : WriteResult :=
  if bytes.length < 2 then .error "Buffer too small"
  else match writeBytesAt (beBytes 2 v) bytes with
    | some b => .ok b 2
    | none => .panic

/-- `codec.rs`: `impl TryReadFromBytes for u16`. -/
def u16_try_read_from_bytes (bytes : List Nat) : Except String (Nat × Nat) :=
  if bytes.length < 2 then .error "Buffer too small"
  else .ok (beFold (bytes.take 2), 2)

/-- `codec.rs`: `impl TryWriteToBytes for u32`. -/
def u32_try_write_to_bytes (v : Nat) (bytes : List Nat) : WriteResult :=
  if bytes.length < 4 then .error "Buffer too small"
  else match writeBytesAt (beBytes 4 v) bytes with
    | some b => .ok b 4
    | none => .panic

/-- `codec.rs`: `impl TryReadFromBytes for u32`. -/
def u32_try_read_from_bytes (bytes : List Nat) : Except String (Nat × Nat) :=
  if bytes.length < 4 then .error "Buffer too small"
  else .ok (beFold (bytes.take 4), 4)

/-- `codec.rs`: `impl TryWriteToBytes for i32` (two's-complement big-endian). -/
def i32_try_write_to_bytes (v : Int) (bytes : List Nat) : WriteResult :=
  if bytes.length < 4 then .error "Buffer too small"
  else match writeBytesAt (beBytes 4 ((v % 4294967296).toNat)) bytes with
    | some b => .ok b 4
    | none => .panic

/-- `codec.rs`: `impl TryReadFromBytes for i32`. -/
def i32_try_read_from_bytes (bytes : List Nat) : Except String (Int × Nat) :=
  if bytes.length < 4 then .error "Buffer too small"
  else .ok (i32OfBits (beFold (bytes.take 4)), 4)

/-- `codec.rs`: `impl TryWriteToBytes for u64`.  The source's length guard is
`bytes.len() < 4` although the eight statements `bytes[0] = …` through
`bytes[7] = …` follow, so a buffer of length 4–7 passes the guard and the
assignment to `bytes[4]` panics (`writeBytesAt` returns `none`). -/
def u64_try_write_to_bytes (v : Nat) (bytes : List Nat) : WriteResult :=
  if bytes.length < 4 then .error "Buffer too small"
  else match writeBytesAt (beBytes 8 v) bytes with
    | some b => .ok b 8
    | none => .panic

/-- `codec.rs`: `impl TryReadFromBytes for u64` (guard is the correct `< 8`). -/
def u64_try_read_from_bytes (bytes : List Nat) : Except String (Nat × Nat) :=
  if bytes.length < 8 then .error "Buffer too small"
  else .ok (beFold (bytes.take 8), 8)

/-- `codec.rs`: `impl TryWriteToBytes for [u8; N]`
(`bytes[0..N].copy_from_slice(self)`, `v` having exactly `n` elements). -/
def array_try_write_to_bytes (n : Nat) (v : List Nat) (bytes : List Nat) : WriteResult :=
  if bytes.length < n then .error "Buffer too small"
  else match writeBytesAt v bytes with
    | some b => .ok b n
    | none => .panic

/-- `codec.rs`: `impl TryReadFromBytes for [u8; N]`. -/
def array_try_read_from_bytes (n : Nat) (bytes : List Nat) : Except String (List Nat × Nat) :=
  if bytes.length < n then .error "Buffer too small"
  else .ok (bytes.take n, n)

/-! ### `types.rs`: codec impls of the wrapper types (plain delegation) -/

def Stratum.try_write_to_bytes (s : Stratum) (bytes : List Nat) : WriteResult :=
  u8_try_write_to_bytes s.val bytes

def Stratum.try_read_from_bytes (bytes : List Nat) : Except String (Stratum × Nat) := do
  let (value, size) ← u8_try_read_from_bytes bytes
  .ok (⟨value⟩, size)

def Poll.try_write_to_bytes (p : Poll) (bytes : List Nat) : WriteResult :=
  i8_try_write_to_bytes p.val bytes

def Poll.try_read_from_bytes (bytes : List Nat) : Except String (Poll × Nat) := do
  let (value, size) ← i8_try_read_from_bytes bytes
  .ok (⟨value⟩, size)

def Precision.try_write_to_bytes (p : Precision) (bytes : List Nat) : WriteResult :=
  i8_try_write_to_bytes p.val bytes

def Precision.try_read_from_bytes (bytes : List Nat) : Except String (Precision × Nat) := do
  let (value, size) ← i8_try_read_from_bytes bytes
  .ok (⟨value⟩, size)

def RefId.try_write_to_bytes (r : RefId) (bytes : List Nat) : WriteResult :=
  array_try_write_to_bytes 4 r.val bytes

def RefId.try_read_from_bytes (bytes : List Nat) : Except String (RefId × Nat) := do
  let (value, size) ← array_try_read_from_bytes 4 bytes
  .ok (⟨value⟩, size)

def NtpShort.try_write_to_bytes (s : NtpShort) (bytes : List Nat) : WriteResult :=
  u32_try_write_to_bytes s.val bytes

def NtpShort.try_read_from_bytes (bytes : List Nat) : Except String (NtpShort × Nat) := do
  let (value, size) ← u32_try_read_from_bytes bytes
  .ok (⟨value⟩, size)

def NtpTimestamp.try_write_to_bytes (t : NtpTimestamp) (bytes : List Nat) : WriteResult :=
  u64_try_write_to_bytes t.val bytes

def NtpTimestamp.try_read_from_bytes (bytes : List Nat) : Except String (NtpTimestamp × Nat) := do
  let (value, size) ← u64_try_read_from_bytes bytes
  .ok (⟨value⟩, size)

/-! ### `ntp_message_protocol.rs`: the 48-byte packet header -/

structure NtpPacketHeader where
  leap_indicator : Leap
  version_number : Version
  mode : Mode
  stratum : Stratum
  poll : Poll
  precision : Precision
  rootdelay : NtpShort
  rootdisp : NtpShort
  refid : RefId
  reftime : NtpTimestamp
  org : NtpTimestamp
  rec' : NtpTimestamp
  xmt : NtpTimestamp
deriving DecidableEq, Repr

/-- `ntp_message_protocol.rs:31`: the first encoded byte,
`(u8::from(leap) << 6) | (u8::from(version) << 3) | u8::from(mode)`
(the `% 256` make the 8-bit arithmetic explicit). -/
def headerByte0 (h : NtpPacketHeader) : Nat :=
  ((h.leap_indicator.val <<< 6) % 256) ||| ((h.version_number.val <<< 3) % 256)
    ||| (h.mode.val % 256)

/-- Sequencing of field writes; propagates the first error or panic. -/
def WriteResult.andThen : WriteResult → (List Nat → Nat → WriteResult) → WriteResult
  | .ok b n, f => f b n
  | .error e, _ => .error e
  | .panic, _ => .panic

/-- One step `total_bytes += field.try_write_to_bytes(&mut bytes[total_bytes..])?`:
the field writer runs on the suffix starting at `total`, the modified suffix is
spliced back into the buffer, and `total` advances by the reported size. -/
def writeAt (w : List Nat → WriteResult) (bytes : List Nat) (total : Nat) : WriteResult :=
  match w (bytes.drop total) with
  | .ok suf n => .ok (bytes.take total ++ suf) (total + n)
  | .error e => .error e
  | .panic => .panic

/-- `ntp_message_protocol.rs:26-54`: `NtpPacketHeader::try_write_to_bytes`.
An empty buffer fails with "Not enough space in buffer"; otherwise byte 0 is
stored directly and the remaining fields are written sequentially. -/
def NtpPacketHeader.try_write_to_bytes (h : NtpPacketHeader) (bytes : List Nat) : WriteResult :=
  match bytes with
  | [] => .error "Not enough space in buffer"
  | _ :: rest =>
    (writeAt (Stratum.try_write_to_bytes h.stratum) (headerByte0 h :: rest) 1).andThen fun b t =>
    (writeAt (Poll.try_write_to_bytes h.poll) b t).andThen fun b t =>
    (writeAt (Precision.try_write_to_bytes h.precision) b t).andThen fun b t =>
    (writeAt (NtpShort.try_write_to_bytes h.rootdelay) b t).andThen fun b t =>
    (writeAt (NtpShort.try_write_to_bytes h.rootdisp) b t).andThen fun b t =>
    (writeAt (RefId.try_write_to_bytes h.refid) b t).andThen fun b t =>
    (writeAt (NtpTimestamp.try_write_to_bytes h.reftime) b t).andThen fun b t =>
    (writeAt (NtpTimestamp.try_write_to_bytes h.org) b t).andThen fun b t =>
    (writeAt (NtpTimestamp.try_write_to_bytes h.rec') b t).andThen fun b t =>
    writeAt (NtpTimestamp.try_write_to_bytes h.xmt) b t

/-- `ntp_message_protocol.rs:60-118`: `NtpPacketHeader::try_read_from_bytes`.
Byte 0 is split by masking and validated through the `TryFrom` constructors;
the remaining fields are read sequentially at the accumulated offset. -/
def NtpPacketHeader.try_read_from_bytes (bytes : List Nat) :
    Except String (NtpPacketHeader × Nat) :=
  match bytes with
  | [] => .error "Not enough space in buffer"
  | b0 :: _ => do
    let leap_indicator ← Leap.try_from ((b0 &&& 0b11000000) >>> 6)
    let version_number ← Version.try_from ((b0 &&& 0b00111000) >>> 3)
    let mode ← Mode.try_from (b0 &&& 0b00000111)
    let t1 := 1
    let (stratum, s) ← Stratum.try_read_from_bytes (bytes.drop t1)
    let t2 := t1 + s
    let (poll, s) ← Poll.try_read_from_bytes (bytes.drop t2)
    let t3 := t2 + s
    let (precision, s) ← Precision.try_read_from_bytes (bytes.drop t3)
    let t4 := t3 + s
    let (rootdelay, s) ← NtpShort.try_read_from_bytes (bytes.drop t4)
    let t5 := t4 + s
    let (rootdisp, s) ← NtpShort.try_read_from_bytes (bytes.drop t5)
    let t6 := t5 + s
    let (refid, s) ← RefId.try_read_from_bytes (bytes.drop t6)
    let t7 := t6 + s
    let (reftime, s) ← NtpTimestamp.try_read_from_bytes (bytes.drop t7)
    let t8 := t7 + s
    let (org, s) ← NtpTimestamp.try_read_from_bytes (bytes.drop t8)
    let t9 := t8 + s
    let (rec', s) ← NtpTimestamp.try_read_from_bytes (bytes.drop t9)
    let t10 := t9 + s
    let (xmt, s) ← NtpTimestamp.try_read_from_bytes (bytes.drop t10)
    let t11 := t10 + s
    .ok (⟨leap_indicator, version_number, mode, stratum, poll, precision,
          rootdelay, rootdisp, refid, reftime, org, rec', xmt⟩, t11)

/-! ### Derived descriptions of the header codec, used to state round trips -/

/-- The 48-byte wire image the header writer emits (byte 0, then each field's
big-endian bytes in source order). -/
def encodeHeader (h : NtpPacketHeader) : List Nat :=
  [headerByte0 h] ++ beBytes 1 h.stratum.val ++ beBytes 1 (i8AsByte h.poll.val)
    ++ beBytes 1 (i8AsByte h.precision.val) ++ beBytes 4 h.rootdelay.val
    ++ beBytes 4 h.rootdisp.val ++ h.refid.val ++ beBytes 8 h.reftime.val
    ++ beBytes 8 h.org.val ++ beBytes 8 h.rec'.val ++ beBytes 8 h.xmt.val

/-- The header value the header reader extracts from a buffer of length ≥ 48. -/
def decodedHeader (bytes : List Nat) : NtpPacketHeader where
  leap_indicator := ⟨((bytes.headD 0) &&& 0b11000000) >>> 6⟩
  version_number := ⟨((bytes.headD 0) &&& 0b00111000) >>> 3⟩
  mode := ⟨(bytes.headD 0) &&& 0b00000111⟩
  stratum := ⟨beFold ((bytes.drop 1).take 1)⟩
  poll := ⟨byteAsI8 (beFold ((bytes.drop 2).take 1))⟩
  precision := ⟨byteAsI8 (beFold ((bytes.drop 3).take 1))⟩
  rootdelay := ⟨beFold ((bytes.drop 4).take 4)⟩
  rootdisp := ⟨beFold ((bytes.drop 8).take 4)⟩
  refid := ⟨(bytes.drop 12).take 4⟩
  reftime := ⟨beFold ((bytes.drop 16).take 8)⟩
  org := ⟨beFold ((bytes.drop 24).take 8)⟩
  rec' := ⟨beFold ((bytes.drop 32).take 8)⟩
  xmt := ⟨beFold ((bytes.drop 40).take 8)⟩

/-- A header whose fields all lie within their Rust storage widths (what any
header built from the constructors of `types.rs`, or decoded from wire bytes,
satisfies). -/
def ValidHeader (h : NtpPacketHeader) : Prop :=
  h.leap_indicator.val ≤ 3 ∧ h.version_number.val ≤ 7 ∧ h.mode.val ≤ 7 ∧
  h.stratum.val < 256 ∧
  -128 ≤ h.poll.val ∧ h.poll.val < 128 ∧
  -128 ≤ h.precision.val ∧ h.precision.val < 128 ∧
  h.rootdelay.val < 4294967296 ∧ h.rootdisp.val < 4294967296 ∧
  h.refid.val.length = 4 ∧ (∀ b ∈ h.refid.val, b < 256) ∧
  h.reftime.val < 18446744073709551616 ∧ h.org.val < 18446744073709551616 ∧
  h.rec'.val < 18446744073709551616 ∧ h.xmt.val < 18446744073709551616

instance (h : NtpPacketHeader) : Decidable (ValidHeader h) := by
  unfold ValidHeader; infer_instance

/-! ### `client.rs`: the exchange entry point `NtpClient::get_offset` -/

/-- What a call to `NtpClient::get_offset` can do: return an `i64`, or panic
(`unwrap` on an `Err`, an out-of-bounds index, or `todo!()`). -/
inductive ClientOutcome where
  | value : Int → ClientOutcome
  | panic : String → ClientOutcome
deriving DecidableEq, Repr

/-- `client.rs:42-56`: the request header (`leap` no-warning, version 4, mode
client, everything else zero). -/
def requestHeader : NtpPacketHeader where
  leap_indicator := NTP_LEAP_NO_WARNING
  version_number := NTP_VERSION_4
  mode := NTP_MODE_CLIENT
  stratum := Stratum.fromU8 0
  poll := Poll.fromI8 0
  precision := Precision.fromI8 0
  rootdelay := NtpShort.new 0 0
  rootdisp := NtpShort.new 0 0
  refid := RefId.fromBytes [0, 0, 0, 0]
  reftime := NtpTimestamp.new 0 0
  org := NtpTimestamp.new 0 0
  rec' := NtpTimestamp.new 0 0
  xmt := NtpTimestamp.new 0 0

/-- `client.rs:39-82`: `NtpClient::get_offset`.  The transport is the only
external effect, so it is passed in as an oracle: whether `send_to` and
`recv_from` succeed, and the received bytes.  The function encodes the request
into a 100-byte zero buffer and unwraps; unwraps the send and receive results;
decodes the received bytes and unwraps; binds `packet.xmt` and `packet.rec`
(never using them); and ends in `todo!()`.  Every `unwrap` of an `Err` and the
final `todo!()` are panics; the sampled local clock values are discarded by the
source, so they do not appear as parameters. -/
def NtpClient.get_offset (sendOk recvOk : Bool) (recvBytes : List Nat) : ClientOutcome :=
  match NtpPacketHeader.try_write_to_bytes requestHeader (List.replicate 100 0) with
  | .error _ => .panic "called `Result::unwrap()` on an `Err` value"
  | .panic => .panic "index out of bounds"
  | .ok _ _ =>
    if !sendOk then .panic "called `Result::unwrap()` on an `Err` value"
    else if !recvOk then .panic "called `Result::unwrap()` on an `Err` value"
    else match NtpPacketHeader.try_read_from_bytes recvBytes with
      | .error _ => .panic "called `Result::unwrap()` on an `Err` value"
      | .ok (packet, _) =>
        let _server_transmission_time := packet.xmt
        let _server_reception_time := packet.rec'
        .panic "not yet implemented"

/-- Modelled from the spec: the offset/delay computation of §4.4 is absent from
the source (`client.rs:81` is `todo!()`); this is the formula the spec mandates,
over exact rationals:
`offset = ((T2 − T1) + (T3 − T4)) / 2`, `delay = (T4 − T1) − (T3 − T2)`. -/
def computeOffsetDelay (t1 t2 t3 t4 : ℚ) : ℚ × ℚ :=
  (((t2 - t1) + (t3 - t4)) / 2, (t4 - t1) - (t3 - t2))

/-! ## Lemmas about the primitive codec -/

theorem beBytes_length (k v : Nat) : (beBytes k v).length = k := by
  induction k generalizing v with
  | zero => rfl
  | succ k ih => simp [beBytes, ih]

theorem writeBytesAt_of_le (emit : List Nat) : ∀ bytes : List Nat,
    emit.length ≤ bytes.length →
    writeBytesAt emit bytes = some (emit ++ bytes.drop emit.length) := by
  induction emit with
  | nil => intro bytes _; simp [writeBytesAt]
  | cons e es ih =>
    intro bytes hle
    cases bytes with
    | nil => simp at hle
    | cons b bs =>
      simp only [List.length_cons] at hle
      simp [writeBytesAt, ih bs (by omega)]

theorem writeBytesAt_of_lt (emit : List Nat) : ∀ bytes : List Nat,
    bytes.length < emit.length → writeBytesAt emit bytes = none := by
  induction emit with
  | nil => intro bytes h; simp at h
  | cons e es ih =>
    intro bytes hlt
    cases bytes with
    | nil => rfl
    | cons b bs =>
      simp only [List.length_cons] at hlt
      simp [writeBytesAt, ih bs (by omega)]

theorem beFold_lt (l : List Nat) : beFold l < 256 ^ l.length := by
  induction l with
  | nil => simp [beFold]
  | cons b t ih =>
    simp only [beFold, List.length_cons, pow_succ]
    have h1 : b % 256 ≤ 255 := by omega
    calc (b % 256) * 256 ^ t.length + beFold t
        ≤ 255 * 256 ^ t.length + beFold t :=
          Nat.add_le_add_right (Nat.mul_le_mul_right _ h1) _
      _ < 255 * 256 ^ t.length + 256 ^ t.length := Nat.add_lt_add_left ih _
      _ = 256 ^ t.length * 256 := by ring

theorem beFold_beBytes (k v : Nat) : beFold (beBytes k v) = v % 2 ^ (8 * k) := by
  induction k with
  | zero => simp [beBytes, beFold, Nat.mod_one]
  | succ k ih =>
    have h256 : (256:Nat) ^ k = 2 ^ (8 * k) := by
      rw [show (256:Nat) = 2 ^ 8 from rfl, ← pow_mul]
    have hexp : (2:Nat) ^ (8 * (k + 1)) = 2 ^ (8 * k) * 256 := by
      rw [show 8 * (k + 1) = 8 * k + 8 from by ring, pow_add]; norm_num
    have hmod : (v >>> (8 * k)) % 256 % 256 = v / 2 ^ (8 * k) % 256 := by
      rw [Nat.shiftRight_eq_div_pow]; omega
    simp only [beBytes, beFold, beBytes_length, ih, hmod, h256, hexp, Nat.mod_mul]
    ring

theorem beBytes_add_high (k : Nat) : ∀ c r : Nat,
    beBytes k (c * 2 ^ (8 * k) + r) = beBytes k r := by
  induction k with
  | zero => intro c r; rfl
  | succ k ih =>
    intro c r
    have hp : (0:Nat) < 2 ^ (8 * k) := Nat.pos_pow_of_pos _ (by omega)
    have hexp : c * 2 ^ (8 * (k + 1)) = (c * 256) * 2 ^ (8 * k) := by
      rw [show 8 * (k + 1) = 8 * k + 8 from by ring, pow_add]; ring
    have hhead : (c * 2 ^ (8 * (k + 1)) + r) >>> (8 * k) % 256 = r >>> (8 * k) % 256 := by
      rw [Nat.shiftRight_eq_div_pow, Nat.shiftRight_eq_div_pow, hexp,
        Nat.add_comm, Nat.add_mul_div_right _ _ hp,
        Nat.add_mul_mod_self_right]
    have htail : beBytes k (c * 2 ^ (8 * (k + 1)) + r) = beBytes k r := by
      rw [hexp, ih (c * 256) r]
    simp only [beBytes, hhead, htail]

theorem beBytes_beFold (l : List Nat) (hl : ∀ b ∈ l, b < 256) :
    beBytes l.length (beFold l) = l := by
  induction l with
  | nil => rfl
  | cons b t ih =>
    have hb : b < 256 := hl b (by simp)
    have ht : ∀ x ∈ t, x < 256 := fun x hx => hl x (by simp [hx])
    have h256 : (256:Nat) ^ t.length = 2 ^ (8 * t.length) := by
      rw [show (256:Nat) = 2 ^ 8 from rfl, ← pow_mul]
    have hfold : beFold (b :: t) = b * 2 ^ (8 * t.length) + beFold t := by
      simp only [beFold, Nat.mod_eq_of_lt hb, h256]
    have hlt : beFold t < 2 ^ (8 * t.length) := by
      have := beFold_lt t; rwa [h256] at this
    have hhead : beFold (b :: t) >>> (8 * t.length) % 256 = b := by
      rw [hfold, Nat.shiftRight_eq_div_pow, Nat.add_comm,
        Nat.add_mul_div_right _ _ (Nat.pos_pow_of_pos _ (by omega)),
        Nat.div_eq_of_lt hlt, Nat.zero_add, Nat.mod_eq_of_lt hb]
    have htail : beBytes t.length (beFold (b :: t)) = t := by
      rw [hfold, beBytes_add_high t.length b (beFold t), ih ht]
    simp only [List.length_cons, beBytes, hhead, htail]

theorem i8AsByte_lt (v : Int) : i8AsByte v < 256 := by
  unfold i8AsByte; omega

theorem byteAsI8_i8AsByte (v : Int) (h1 : -128 ≤ v) (h2 : v < 128) :
    byteAsI8 (i8AsByte v) = v := by
  unfold byteAsI8 i8AsByte
  split <;> omega

theorem i8AsByte_byteAsI8 (b : Nat) (hb : b < 256) : i8AsByte (byteAsI8 b) = b := by
  unfold byteAsI8 i8AsByte
  split <;> omega

/-! ## Success shapes of the field-level writers and readers -/

theorem stratum_write_spec (s : Stratum) (bytes : List Nat) (h : 1 ≤ bytes.length) :
    Stratum.try_write_to_bytes s bytes = .ok (beBytes 1 s.val ++ bytes.drop 1) 1 := by
  have he : (beBytes 1 s.val).length ≤ bytes.length := by rw [beBytes_length]; omega
  simp only [Stratum.try_write_to_bytes, u8_try_write_to_bytes,
    if_neg (by omega : ¬ bytes.length < 1), writeBytesAt_of_le _ _ he, beBytes_length]

theorem poll_write_spec (p : Poll) (bytes : List Nat) (h : 1 ≤ bytes.length) :
    Poll.try_write_to_bytes p bytes = .ok (beBytes 1 (i8AsByte p.val) ++ bytes.drop 1) 1 := by
  have he : (beBytes 1 (i8AsByte p.val)).length ≤ bytes.length := by rw [beBytes_length]; omega
  simp only [Poll.try_write_to_bytes, i8_try_write_to_bytes,
    if_neg (by omega : ¬ bytes.length < 1), writeBytesAt_of_le _ _ he, beBytes_length]

theorem precision_write_spec (p : Precision) (bytes : List Nat) (h : 1 ≤ bytes.length) :
    Precision.try_write_to_bytes p bytes =
      .ok (beBytes 1 (i8AsByte p.val) ++ bytes.drop 1) 1 := by
  have he : (beBytes 1 (i8AsByte p.val)).length ≤ bytes.length := by rw [beBytes_length]; omega
  simp only [Precision.try_write_to_bytes, i8_try_write_to_bytes,
    if_neg (by omega : ¬ bytes.length < 1), writeBytesAt_of_le _ _ he, beBytes_length]

theorem ntpshort_write_spec (s : NtpShort) (bytes : List Nat) (h : 4 ≤ bytes.length) :
    NtpShort.try_write_to_bytes s bytes = .ok (beBytes 4 s.val ++ bytes.drop 4) 4 := by
  have he : (beBytes 4 s.val).length ≤ bytes.length := by rw [beBytes_length]; omega
  simp only [NtpShort.try_write_to_bytes, u32_try_write_to_bytes,
    if_neg (by omega : ¬ bytes.length < 4), writeBytesAt_of_le _ _ he, beBytes_length]

theorem refid_write_spec (r : RefId) (bytes : List Nat) (hr : r.val.length = 4)
    (h : 4 ≤ bytes.length) :
    RefId.try_write_to_bytes r bytes = .ok (r.val ++ bytes.drop 4) 4 := by
  have he : r.val.length ≤ bytes.length := by omega
  simp only [RefId.try_write_to_bytes, array_try_write_to_bytes,
    if_neg (by omega : ¬ bytes.length < 4), writeBytesAt_of_le _ _ he, hr]

theorem ntptimestamp_write_spec (t : NtpTimestamp) (bytes : List Nat) (h : 8 ≤ bytes.length) :
    NtpTimestamp.try_write_to_bytes t bytes = .ok (beBytes 8 t.val ++ bytes.drop 8) 8 := by
  have he : (beBytes 8 t.val).length ≤ bytes.length := by rw [beBytes_length]; omega
  simp only [NtpTimestamp.try_write_to_bytes, u64_try_write_to_bytes,
    if_neg (by omega : ¬ bytes.length < 4), writeBytesAt_of_le _ _ he, beBytes_length]

theorem stratum_read_spec (bytes : List Nat) (h : 1 ≤ bytes.length) :
    Stratum.try_read_from_bytes bytes = .ok (⟨beFold (bytes.take 1)⟩, 1) := by
  simp only [Stratum.try_read_from_bytes, u8_try_read_from_bytes,
    if_neg (by omega : ¬ bytes.length < 1)]
  rfl

theorem poll_read_spec (bytes : List Nat) (h : 1 ≤ bytes.length) :
    Poll.try_read_from_bytes bytes = .ok (⟨byteAsI8 (beFold (bytes.take 1))⟩, 1) := by
  simp only [Poll.try_read_from_bytes, i8_try_read_from_bytes,
    if_neg (by omega : ¬ bytes.length < 1)]
  rfl

theorem precision_read_spec (bytes : List Nat) (h : 1 ≤ bytes.length) :
    Precision.try_read_from_bytes bytes = .ok (⟨byteAsI8 (beFold (bytes.take 1))⟩, 1) := by
  simp only [Precision.try_read_from_bytes, i8_try_read_from_bytes,
    if_neg (by omega : ¬ bytes.length < 1)]
  rfl

theorem ntpshort_read_spec (bytes : List Nat) (h : 4 ≤ bytes.length) :
    NtpShort.try_read_from_bytes bytes = .ok (⟨beFold (bytes.take 4)⟩, 4) := by
  simp only [NtpShort.try_read_from_bytes, u32_try_read_from_bytes,
    if_neg (by omega : ¬ bytes.length < 4)]
  rfl

theorem refid_read_spec (bytes : List Nat) (h : 4 ≤ bytes.length) :
    RefId.try_read_from_bytes bytes = .ok (⟨bytes.take 4⟩, 4) := by
  simp only [RefId.try_read_from_bytes, array_try_read_from_bytes,
    if_neg (by omega : ¬ bytes.length < 4)]
  rfl

theorem ntptimestamp_read_spec (bytes : List Nat) (h : 8 ≤ bytes.length) :
    NtpTimestamp.try_read_from_bytes bytes = .ok (⟨beFold (bytes.take 8)⟩, 8) := by
  simp only [NtpTimestamp.try_read_from_bytes, u64_try_read_from_bytes,
    if_neg (by omega : ¬ bytes.length < 8)]
  rfl

/-! ## Bit-level facts about the packed first byte -/

theorem mask_leap_le (b : Nat) : (b &&& 0b11000000) >>> 6 ≤ 3 := by
  have h1 : b &&& 0b11000000 ≤ 0b11000000 := Nat.and_le_right
  rw [Nat.shiftRight_eq_div_pow]
  calc (b &&& 0b11000000) / 2 ^ 6 ≤ 0b11000000 / 2 ^ 6 := Nat.div_le_div_right h1
    _ = 3 := rfl

theorem mask_version_le (b : Nat) : (b &&& 0b00111000) >>> 3 ≤ 7 := by
  have h1 : b &&& 0b00111000 ≤ 0b00111000 := Nat.and_le_right
  rw [Nat.shiftRight_eq_div_pow]
  calc (b &&& 0b00111000) / 2 ^ 3 ≤ 0b00111000 / 2 ^ 3 := Nat.div_le_div_right h1
    _ = 7 := rfl

theorem mask_mode_le (b : Nat) : b &&& 0b00000111 ≤ 7 := Nat.and_le_right

/-- Splitting the packed byte recovers the three fields (all in-range cases,
checked exhaustively). -/
theorem byte0_decode : ∀ l < 4, ∀ v < 8, ∀ m < 8,
    (((((l <<< 6) % 256) ||| ((v <<< 3) % 256) ||| (m % 256)) &&& 0b11000000) >>> 6 = l) ∧
    (((((l <<< 6) % 256) ||| ((v <<< 3) % 256) ||| (m % 256)) &&& 0b00111000) >>> 3 = v) ∧
    ((((l <<< 6) % 256) ||| ((v <<< 3) % 256) ||| (m % 256)) &&& 0b00000111 = m) := by
  decide

/-- For in-range fields the `% 256` in the packed byte are redundant. -/
theorem byte0_no_overflow : ∀ l < 4, ∀ v < 8, ∀ m < 8,
    (((l <<< 6) % 256) ||| ((v <<< 3) % 256) ||| (m % 256)) =
      ((l <<< 6) ||| (v <<< 3) ||| m) := by
  decide

/-- Re-packing the three masked fields of a byte reproduces the byte. -/
theorem byte0_encode : ∀ b < 256,
    (((((b &&& 0b11000000) >>> 6) <<< 6) % 256) |||
     ((((b &&& 0b00111000) >>> 3) <<< 3) % 256) ||| ((b &&& 0b00000111) % 256)) = b := by
  decide

theorem except_ok_bind {e a b : Type} (x : a) (f : a → Except e b) :
    (Except.ok x : Except e a) >>= f = f x := rfl

/-! ## The header writer on a large-enough buffer -/

theorem writeAt_ok {w : List Nat → WriteResult} (pre rest emit : List Nat) {t k : Nat}
    (hpre : pre.length = t) (hw : w rest = .ok (emit ++ rest.drop k) k) :
    writeAt w (pre ++ rest) t = .ok ((pre ++ emit) ++ rest.drop k) (t + k) := by
  simp only [writeAt, List.drop_left' hpre, hw, List.take_left' hpre, List.append_assoc]

theorem write_header_spec (h : NtpPacketHeader) (bytes : List Nat)
    (hr : h.refid.val.length = 4) (hlen : 48 ≤ bytes.length) :
    NtpPacketHeader.try_write_to_bytes h bytes = .ok (encodeHeader h ++ bytes.drop 48) 48 := by
  cases bytes with
  | nil => simp at hlen
  | cons b rest =>
    have hrest : 47 ≤ rest.length := by
      simp only [List.length_cons] at hlen; omega
    have hdrop : ∀ j : Nat, (rest.drop j).length = rest.length - j := fun j =>
      List.length_drop j rest
    simp only [NtpPacketHeader.try_write_to_bytes]
    rw [show headerByte0 h :: rest = [headerByte0 h] ++ rest from rfl]
    rw [writeAt_ok [headerByte0 h] rest _ (by simp)
      (stratum_write_spec h.stratum rest (by omega))]
    simp only [WriteResult.andThen]
    rw [writeAt_ok _ (rest.drop 1) _ (by simp [beBytes_length])
      (poll_write_spec h.poll (rest.drop 1) (by rw [hdrop]; omega))]
    simp only [WriteResult.andThen]
    rw [writeAt_ok _ ((rest.drop 1).drop 1) _ (by simp [beBytes_length])
      (precision_write_spec h.precision _ (by simp only [List.drop_drop, hdrop]; omega))]
    simp only [WriteResult.andThen]
    rw [writeAt_ok _ _ _ (by simp [beBytes_length])
      (ntpshort_write_spec h.rootdelay _ (by simp only [List.drop_drop, hdrop]; omega))]
    simp only [WriteResult.andThen]
    rw [writeAt_ok _ _ _ (by simp [beBytes_length])
      (ntpshort_write_spec h.rootdisp _ (by simp only [List.drop_drop, hdrop]; omega))]
    simp only [WriteResult.andThen]
    rw [writeAt_ok _ _ _ (by simp [beBytes_length])
      (refid_write_spec h.refid _ hr (by simp only [List.drop_drop, hdrop]; omega))]
    simp only [WriteResult.andThen]
    rw [writeAt_ok _ _ _ (by simp [beBytes_length, hr])
      (ntptimestamp_write_spec h.reftime _ (by simp only [List.drop_drop, hdrop]; omega))]
    simp only [WriteResult.andThen]
    rw [writeAt_ok _ _ _ (by simp [beBytes_length, hr])
      (ntptimestamp_write_spec h.org _ (by simp only [List.drop_drop, hdrop]; omega))]
    simp only [WriteResult.andThen]
    rw [writeAt_ok _ _ _ (by simp [beBytes_length, hr])
      (ntptimestamp_write_spec h.rec' _ (by simp only [List.drop_drop, hdrop]; omega))]
    simp only [WriteResult.andThen]
    rw [writeAt_ok _ _ _ (by simp [beBytes_length, hr])
      (ntptimestamp_write_spec h.xmt _ (by simp only [List.drop_drop, hdrop]; omega))]
    rw [show (b :: rest).drop 48 = rest.drop 47 from rfl]
    simp [encodeHeader, List.append_assoc, List.drop_drop]

/-! ## The header reader on a large-enough buffer -/

theorem read_header_spec (bytes : List Nat) (hlen : 48 ≤ bytes.length) :
    NtpPacketHeader.try_read_from_bytes bytes = .ok (decodedHeader bytes, 48) := by
  cases bytes with
  | nil => simp at hlen
  | cons b0 rest =>
    have hrest : 47 ≤ rest.length := by simp only [List.length_cons] at hlen; omega
    have hleap : Leap.try_from ((b0 &&& 0b11000000) >>> 6) =
        .ok ⟨(b0 &&& 0b11000000) >>> 6⟩ := by
      unfold Leap.try_from
      rw [if_neg (by have := mask_leap_le b0; omega)]
    have hversion : Version.try_from ((b0 &&& 0b00111000) >>> 3) =
        .ok ⟨(b0 &&& 0b00111000) >>> 3⟩ := by
      unfold Version.try_from
      rw [if_neg (by have := mask_version_le b0; omega)]
    have hmode : Mode.try_from (b0 &&& 0b00000111) = .ok ⟨b0 &&& 0b00000111⟩ := by
      unfold Mode.try_from
      rw [if_neg (by have := mask_mode_le b0; omega)]
    simp only [NtpPacketHeader.try_read_from_bytes, hleap, hversion, hmode]
    rw [stratum_read_spec (List.drop 1 (b0 :: rest)) (by simp; omega)]
    simp only [except_ok_bind]
    rw [show List.drop (1 + 1) (b0 :: rest) = List.drop 1 rest from rfl]
    rw [poll_read_spec (List.drop 1 rest) (by simp; omega)]
    simp only [except_ok_bind]
    rw [show List.drop (1 + 1 + 1) (b0 :: rest) = List.drop 2 rest from rfl]
    rw [precision_read_spec (List.drop 2 rest) (by simp; omega)]
    simp only [except_ok_bind]
    rw [show List.drop (1 + 1 + 1 + 1) (b0 :: rest) = List.drop 3 rest from rfl]
    rw [ntpshort_read_spec (List.drop 3 rest) (by simp; omega)]
    simp only [except_ok_bind]
    rw [show List.drop (1 + 1 + 1 + 1 + 4) (b0 :: rest) = List.drop 7 rest from rfl]
    rw [ntpshort_read_spec (List.drop 7 rest) (by simp; omega)]
    simp only [except_ok_bind]
    rw [show List.drop (1 + 1 + 1 + 1 + 4 + 4) (b0 :: rest) = List.drop 11 rest from rfl]
    rw [refid_read_spec (List.drop 11 rest) (by simp; omega)]
    simp only [except_ok_bind]
    rw [show List.drop (1 + 1 + 1 + 1 + 4 + 4 + 4) (b0 :: rest) = List.drop 15 rest from rfl]
    rw [ntptimestamp_read_spec (List.drop 15 rest) (by simp; omega)]
    simp only [except_ok_bind]
    rw [show List.drop (1 + 1 + 1 + 1 + 4 + 4 + 4 + 8) (b0 :: rest) = List.drop 23 rest from rfl]
    rw [ntptimestamp_read_spec (List.drop 23 rest) (by simp; omega)]
    simp only [except_ok_bind]
    rw [show List.drop (1 + 1 + 1 + 1 + 4 + 4 + 4 + 8 + 8) (b0 :: rest) =
      List.drop 31 rest from rfl]
    rw [ntptimestamp_read_spec (List.drop 31 rest) (by simp; omega)]
    simp only [except_ok_bind]
    rw [show List.drop (1 + 1 + 1 + 1 + 4 + 4 + 4 + 8 + 8 + 8) (b0 :: rest) =
      List.drop 39 rest from rfl]
    rw [ntptimestamp_read_spec (List.drop 39 rest) (by simp; omega)]
    simp only [except_ok_bind]
    rfl


theorem seg {l : List Nat} (pre mid post : List Nat) {t k : Nat}
    (hsplit : l = pre ++ (mid ++ post)) (hpre : pre.length = t) (hmid : mid.length = k) :
    (l.drop t).take k = mid := by
  subst hsplit; rw [List.drop_left' hpre, List.take_left' hmid]

theorem encodeHeader_length (h : NtpPacketHeader) (hr : h.refid.val.length = 4) :
    (encodeHeader h).length = 48 := by
  simp [encodeHeader, beBytes_length, hr]

theorem decodedHeader_encodeHeader (h : NtpPacketHeader) (rest : List Nat)
    (hv : ValidHeader h) :
    decodedHeader (encodeHeader h ++ rest) = h := by
  obtain ⟨hl, hver, hm, hs, hp1, hp2, hq1, hq2, hrd, hrdp, hrflen, hrfmem,
    hrt, horg, hrec, hxmt⟩ := hv
  have e0 : (encodeHeader h ++ rest).headD 0 = headerByte0 h := by
    simp [encodeHeader]
  have e1 : ((encodeHeader h ++ rest).drop 1).take 1 = beBytes 1 h.stratum.val := by
    apply seg [headerByte0 h] (beBytes 1 h.stratum.val)
      (beBytes 1 (i8AsByte h.poll.val) ++ beBytes 1 (i8AsByte h.precision.val) ++
        beBytes 4 h.rootdelay.val ++ beBytes 4 h.rootdisp.val ++ h.refid.val ++
        beBytes 8 h.reftime.val ++ beBytes 8 h.org.val ++ beBytes 8 h.rec'.val ++
        beBytes 8 h.xmt.val ++ rest)
    · simp [encodeHeader, List.append_assoc]
    · simp
    · simp [beBytes_length]
  have e2 : ((encodeHeader h ++ rest).drop 2).take 1 = beBytes 1 (i8AsByte h.poll.val) := by
    apply seg ([headerByte0 h] ++ beBytes 1 h.stratum.val) (beBytes 1 (i8AsByte h.poll.val))
      (beBytes 1 (i8AsByte h.precision.val) ++
        beBytes 4 h.rootdelay.val ++ beBytes 4 h.rootdisp.val ++ h.refid.val ++
        beBytes 8 h.reftime.val ++ beBytes 8 h.org.val ++ beBytes 8 h.rec'.val ++
        beBytes 8 h.xmt.val ++ rest)
    · simp [encodeHeader, List.append_assoc]
    · simp [beBytes_length]
    · simp [beBytes_length]
  have e3 : ((encodeHeader h ++ rest).drop 3).take 1 =
      beBytes 1 (i8AsByte h.precision.val) := by
    apply seg ([headerByte0 h] ++ beBytes 1 h.stratum.val ++ beBytes 1 (i8AsByte h.poll.val))
      (beBytes 1 (i8AsByte h.precision.val))
      (beBytes 4 h.rootdelay.val ++ beBytes 4 h.rootdisp.val ++ h.refid.val ++
        beBytes 8 h.reftime.val ++ beBytes 8 h.org.val ++ beBytes 8 h.rec'.val ++
        beBytes 8 h.xmt.val ++ rest)
    · simp [encodeHeader, List.append_assoc]
    · simp [beBytes_length]
    · simp [beBytes_length]
  have e4 : ((encodeHeader h ++ rest).drop 4).take 4 = beBytes 4 h.rootdelay.val := by
    apply seg ([headerByte0 h] ++ beBytes 1 h.stratum.val ++ beBytes 1 (i8AsByte h.poll.val)
        ++ beBytes 1 (i8AsByte h.precision.val))
      (beBytes 4 h.rootdelay.val)
      (beBytes 4 h.rootdisp.val ++ h.refid.val ++
        beBytes 8 h.reftime.val ++ beBytes 8 h.org.val ++ beBytes 8 h.rec'.val ++
        beBytes 8 h.xmt.val ++ rest)
    · simp [encodeHeader, List.append_assoc]
    · simp [beBytes_length]
    · simp [beBytes_length]
  have e8 : ((encodeHeader h ++ rest).drop 8).take 4 = beBytes 4 h.rootdisp.val := by
    apply seg ([headerByte0 h] ++ beBytes 1 h.stratum.val ++ beBytes 1 (i8AsByte h.poll.val)
        ++ beBytes 1 (i8AsByte h.precision.val) ++ beBytes 4 h.rootdelay.val)
      (beBytes 4 h.rootdisp.val)
      (h.refid.val ++ beBytes 8 h.reftime.val ++ beBytes 8 h.org.val ++
        beBytes 8 h.rec'.val ++ beBytes 8 h.xmt.val ++ rest)
    · simp [encodeHeader, List.append_assoc]
    · simp [beBytes_length]
    · simp [beBytes_length]
  have e12 : ((encodeHeader h ++ rest).drop 12).take 4 = h.refid.val := by
    apply seg ([headerByte0 h] ++ beBytes 1 h.stratum.val ++ beBytes 1 (i8AsByte h.poll.val)
        ++ beBytes 1 (i8AsByte h.precision.val) ++ beBytes 4 h.rootdelay.val
        ++ beBytes 4 h.rootdisp.val)
      h.refid.val
      (beBytes 8 h.reftime.val ++ beBytes 8 h.org.val ++
        beBytes 8 h.rec'.val ++ beBytes 8 h.xmt.val ++ rest)
    · simp [encodeHeader, List.append_assoc]
    · simp [beBytes_length]
    · exact hrflen
  have e16 : ((encodeHeader h ++ rest).drop 16).take 8 = beBytes 8 h.reftime.val := by
    apply seg ([headerByte0 h] ++ beBytes 1 h.stratum.val ++ beBytes 1 (i8AsByte h.poll.val)
        ++ beBytes 1 (i8AsByte h.precision.val) ++ beBytes 4 h.rootdelay.val
        ++ beBytes 4 h.rootdisp.val ++ h.refid.val)
      (beBytes 8 h.reftime.val)
      (beBytes 8 h.org.val ++ beBytes 8 h.rec'.val ++ beBytes 8 h.xmt.val ++ rest)
    · simp [encodeHeader, List.append_assoc]
    · simp [beBytes_length, hrflen]
    · simp [beBytes_length]
  have e24 : ((encodeHeader h ++ rest).drop 24).take 8 = beBytes 8 h.org.val := by
    apply seg ([headerByte0 h] ++ beBytes 1 h.stratum.val ++ beBytes 1 (i8AsByte h.poll.val)
        ++ beBytes 1 (i8AsByte h.precision.val) ++ beBytes 4 h.rootdelay.val
        ++ beBytes 4 h.rootdisp.val ++ h.refid.val ++ beBytes 8 h.reftime.val)
      (beBytes 8 h.org.val)
      (beBytes 8 h.rec'.val ++ beBytes 8 h.xmt.val ++ rest)
    · simp [encodeHeader, List.append_assoc]
    · simp [beBytes_length, hrflen]
    · simp [beBytes_length]
  have e32 : ((encodeHeader h ++ rest).drop 32).take 8 = beBytes 8 h.rec'.val := by
    apply seg ([headerByte0 h] ++ beBytes 1 h.stratum.val ++ beBytes 1 (i8AsByte h.poll.val)
        ++ beBytes 1 (i8AsByte h.precision.val) ++ beBytes 4 h.rootdelay.val
        ++ beBytes 4 h.rootdisp.val ++ h.refid.val ++ beBytes 8 h.reftime.val
        ++ beBytes 8 h.org.val)
      (beBytes 8 h.rec'.val)
      (beBytes 8 h.xmt.val ++ rest)
    · simp [encodeHeader, List.append_assoc]
    · simp [beBytes_length, hrflen]
    · simp [beBytes_length]
  have e40 : ((encodeHeader h ++ rest).drop 40).take 8 = beBytes 8 h.xmt.val := by
    apply seg ([headerByte0 h] ++ beBytes 1 h.stratum.val ++ beBytes 1 (i8AsByte h.poll.val)
        ++ beBytes 1 (i8AsByte h.precision.val) ++ beBytes 4 h.rootdelay.val
        ++ beBytes 4 h.rootdisp.val ++ h.refid.val ++ beBytes 8 h.reftime.val
        ++ beBytes 8 h.org.val ++ beBytes 8 h.rec'.val)
      (beBytes 8 h.xmt.val) rest
    · simp [encodeHeader, List.append_assoc]
    · simp [beBytes_length, hrflen]
    · simp [beBytes_length]
  simp only [decodedHeader, e0, e1, e2, e3, e4, e8, e12, e16, e24, e32, e40, headerByte0,
    beFold_beBytes]
  rw [(byte0_decode h.leap_indicator.val (by omega) h.version_number.val (by omega)
      h.mode.val (by omega)).1,
    (byte0_decode h.leap_indicator.val (by omega) h.version_number.val (by omega)
      h.mode.val (by omega)).2.1,
    (byte0_decode h.leap_indicator.val (by omega) h.version_number.val (by omega)
      h.mode.val (by omega)).2.2]
  rw [show (2:Nat) ^ (8 * 1) = 256 from by norm_num,
    show (2:Nat) ^ (8 * 4) = 4294967296 from by norm_num,
    show (2:Nat) ^ (8 * 8) = 18446744073709551616 from by norm_num]
  rw [Nat.mod_eq_of_lt hs, Nat.mod_eq_of_lt (i8AsByte_lt h.poll.val),
    Nat.mod_eq_of_lt (i8AsByte_lt h.precision.val),
    Nat.mod_eq_of_lt hrd, Nat.mod_eq_of_lt hrdp,
    Nat.mod_eq_of_lt hrt, Nat.mod_eq_of_lt horg, Nat.mod_eq_of_lt hrec,
    Nat.mod_eq_of_lt hxmt,
    byteAsI8_i8AsByte h.poll.val hp1 hp2, byteAsI8_i8AsByte h.precision.val hq1 hq2]

theorem decodedHeader_refid_length (bytes : List Nat) (hlen : 48 ≤ bytes.length) :
    (decodedHeader bytes).refid.val.length = 4 := by
  simp only [decodedHeader, List.length_take, List.length_drop]
  omega

theorem take48_split (l : List Nat) :
    l.take 1 ++ (l.drop 1).take 1 ++ (l.drop 2).take 1 ++ (l.drop 3).take 1 ++
      (l.drop 4).take 4 ++ (l.drop 8).take 4 ++ (l.drop 12).take 4 ++
      (l.drop 16).take 8 ++ (l.drop 24).take 8 ++ (l.drop 32).take 8 ++
      (l.drop 40).take 8 = l.take 48 := by
  have t2 : l.take 1 ++ (l.drop 1).take 1 = l.take 2 := by
    simpa using (List.take_add l 1 1).symm
  have t3 : l.take 2 ++ (l.drop 2).take 1 = l.take 3 := by
    simpa using (List.take_add l 2 1).symm
  have t4 : l.take 3 ++ (l.drop 3).take 1 = l.take 4 := by
    simpa using (List.take_add l 3 1).symm
  have t8 : l.take 4 ++ (l.drop 4).take 4 = l.take 8 := by
    simpa using (List.take_add l 4 4).symm
  have t12 : l.take 8 ++ (l.drop 8).take 4 = l.take 12 := by
    simpa using (List.take_add l 8 4).symm
  have t16 : l.take 12 ++ (l.drop 12).take 4 = l.take 16 := by
    simpa using (List.take_add l 12 4).symm
  have t24 : l.take 16 ++ (l.drop 16).take 8 = l.take 24 := by
    simpa using (List.take_add l 16 8).symm
  have t32 : l.take 24 ++ (l.drop 24).take 8 = l.take 32 := by
    simpa using (List.take_add l 24 8).symm
  have t40 : l.take 32 ++ (l.drop 32).take 8 = l.take 40 := by
    simpa using (List.take_add l 32 8).symm
  have t48 : l.take 40 ++ (l.drop 40).take 8 = l.take 48 := by
    simpa using (List.take_add l 40 8).symm
  rw [t2, t3, t4, t8, t12, t16, t24, t32, t40, t48]

theorem encodeHeader_decodedHeader (bytes : List Nat) (hlen : 48 ≤ bytes.length)
    (hb : ∀ x ∈ bytes, x < 256) :
    encodeHeader (decodedHeader bytes) = bytes.take 48 := by
  have hseg : ∀ t k : Nat, t + k ≤ 48 →
      beBytes k (beFold ((bytes.drop t).take k)) = (bytes.drop t).take k := by
    intro t k htk
    have hl2 : ((bytes.drop t).take k).length = k := by
      simp only [List.length_take, List.length_drop]; omega
    have hmem : ∀ x ∈ (bytes.drop t).take k, x < 256 := fun x hx =>
      hb x (List.mem_of_mem_drop (List.mem_of_mem_take hx))
    have h3 := beBytes_beFold ((bytes.drop t).take k) hmem
    rwa [hl2] at h3
  have hi8 : ∀ t : Nat, t + 1 ≤ 48 →
      beBytes 1 (i8AsByte (byteAsI8 (beFold ((bytes.drop t).take 1)))) =
        (bytes.drop t).take 1 := by
    intro t ht
    have hl2 : ((bytes.drop t).take 1).length = 1 := by
      simp only [List.length_take, List.length_drop]; omega
    have hfl : beFold ((bytes.drop t).take 1) < 256 := by
      have h1 := beFold_lt ((bytes.drop t).take 1)
      rwa [hl2, pow_one] at h1
    rw [i8AsByte_byteAsI8 _ hfl]
    exact hseg t 1 ht
  cases bytes with
  | nil => simp at hlen
  | cons b0 rest =>
    have hb0 : b0 < 256 := hb b0 (by simp)
    have hbyte0 : headerByte0 (decodedHeader (b0 :: rest)) = b0 := by
      simp only [decodedHeader, headerByte0, List.headD_cons]
      exact byte0_encode b0 hb0
    simp only [encodeHeader]
    rw [hbyte0]
    simp only [decodedHeader]
    rw [hseg 1 1 (by omega), hi8 2 (by omega), hi8 3 (by omega), hseg 4 4 (by omega),
      hseg 8 4 (by omega), hseg 16 8 (by omega), hseg 24 8 (by omega),
      hseg 32 8 (by omega), hseg 40 8 (by omega)]
    rw [show [b0] = (b0 :: rest).take 1 from rfl]
    exact take48_split (b0 :: rest)

/-! ## Claim theorems -/

/-- Claim C1: the spec's four-timestamp formula gives offset `1/2` and delay `9`
at T1=0, T2=5, T3=6, T4=10 — but the exchange operation in the source never
computes it: `NtpClient::get_offset` reads `packet.xmt` and `packet.rec` and
then hits `todo!()` (`client.rs:81`), panicking instead of returning a value,
even on a well-formed response carrying T2 = 5 s and T3 = 6 s. -/
theorem get_offset_formula_unimplemented :
    computeOffsetDelay 0 5 6 10 = (1/2, 9) ∧
    NtpClient.get_offset true true
        (encodeHeader { requestHeader with
          rec' := NtpTimestamp.new 5 0, xmt := NtpTimestamp.new 6 0 }) =
      ClientOutcome.panic "not yet implemented" := by
  constructor
  · norm_num [computeOffsetDelay]
  · decide

/-- Claim C2: writing a `u64` into a buffer shorter than 8 bytes does not always
fail with `BufferTooSmall` — the source's guard is `bytes.len() < 4`, so a
4-byte buffer passes the guard and the assignment `bytes[4] = …` goes out of
bounds (modelled as a panic); the same reaches the header writer on a 20-byte
buffer (the `reftime` field starts at offset 16).  A 3-byte buffer does get the
`BufferTooSmall` error. -/
theorem u64_write_guard_bug :
    u64_try_write_to_bytes 0 [0, 0, 0, 0] = WriteResult.panic ∧
    NtpPacketHeader.try_write_to_bytes requestHeader (List.replicate 20 0) =
      WriteResult.panic ∧
    u64_try_write_to_bytes 0 [0, 0, 0] = WriteResult.error "Buffer too small" := by
  refine ⟨by decide, by decide, by decide⟩

/-- Claim C3: for every valid header and destination of at least 48 bytes
encoding reports exactly 48 bytes written, and decoding the encoded bytes
returns the original header (decode ∘ encode = id). -/
theorem header_roundtrip (h : NtpPacketHeader) (bytes : List Nat)
    (hv : ValidHeader h) (hlen : 48 ≤ bytes.length) :
    ∃ out, NtpPacketHeader.try_write_to_bytes h bytes = WriteResult.ok out 48 ∧
      NtpPacketHeader.try_read_from_bytes out = Except.ok (h, 48) := by
  have hvc := hv
  obtain ⟨-, -, -, -, -, -, -, -, -, -, hrflen, -⟩ := hvc
  refine ⟨encodeHeader h ++ bytes.drop 48, write_header_spec h bytes hrflen hlen, ?_⟩
  rw [read_header_spec _ (by simp [encodeHeader_length h hrflen]),
    decodedHeader_encodeHeader h _ hv]

theorem header_roundtrip_witness :
    ∃ out, NtpPacketHeader.try_write_to_bytes requestHeader (List.replicate 48 0) =
        WriteResult.ok out 48 ∧
      NtpPacketHeader.try_read_from_bytes out = Except.ok (requestHeader, 48) :=
  header_roundtrip requestHeader (List.replicate 48 0) (by decide) (by decide)

/-- Claim C4: the entry point that runs one exchange does not return a
`Result` and does not surface failures to the caller: `NtpClient::get_offset`
returns a bare `i64`, unwraps every fallible step (panicking on any transport
or codec failure), and unconditionally reaches `todo!()`, so it never returns
a value at all. -/
theorem get_offset_never_returns :
    ∀ (sendOk recvOk : Bool) (recvBytes : List Nat),
      ∃ msg, NtpClient.get_offset sendOk recvOk recvBytes = ClientOutcome.panic msg := by
  intro sendOk recvOk recvBytes
  unfold NtpClient.get_offset
  cases hW : NtpPacketHeader.try_write_to_bytes requestHeader (List.replicate 100 0) with
  | ok b n =>
    cases sendOk <;> cases recvOk <;> simp
    cases hR : NtpPacketHeader.try_read_from_bytes recvBytes with
    | ok p =>
      obtain ⟨pk, pn⟩ := p
      simp
    | error e => simp
  | error e => simp
  | panic => simp

/-- Claim C5: byte 0 of an encoded header is `(leap << 6) | (version << 3) | mode`;
packing leap=0, version=4, mode=3 gives 0x23, and decoding a buffer whose first
byte is 0x23 yields leap=0, version=4, mode=3. -/
theorem byte0_bit_packing (h : NtpPacketHeader) (bytes rest : List Nat)
    (hv : ValidHeader h) (hlen : 48 ≤ bytes.length) (hrest : 47 ≤ rest.length) :
    (∃ tail, NtpPacketHeader.try_write_to_bytes h bytes =
        WriteResult.ok (((h.leap_indicator.val <<< 6) ||| (h.version_number.val <<< 3) |||
          h.mode.val) :: tail) 48) ∧
    headerByte0 requestHeader = 0x23 ∧
    (∃ hdr, NtpPacketHeader.try_read_from_bytes (0x23 :: rest) = Except.ok (hdr, 48) ∧
      hdr.leap_indicator.val = 0 ∧ hdr.version_number.val = 4 ∧ hdr.mode.val = 3) := by
  have hvc := hv
  obtain ⟨hl, hver, hm, -, -, -, -, -, -, -, hrflen, -⟩ := hvc
  have hb0 : headerByte0 h =
      (h.leap_indicator.val <<< 6) ||| (h.version_number.val <<< 3) ||| h.mode.val :=
    byte0_no_overflow h.leap_indicator.val (by omega) h.version_number.val (by omega)
      h.mode.val (by omega)
  refine ⟨⟨beBytes 1 h.stratum.val ++ beBytes 1 (i8AsByte h.poll.val) ++
      beBytes 1 (i8AsByte h.precision.val) ++ beBytes 4 h.rootdelay.val ++
      beBytes 4 h.rootdisp.val ++ h.refid.val ++ beBytes 8 h.reftime.val ++
      beBytes 8 h.org.val ++ beBytes 8 h.rec'.val ++ beBytes 8 h.xmt.val ++
      bytes.drop 48, ?_⟩, by decide, ?_⟩
  · rw [write_header_spec h bytes hrflen hlen]
    simp [encodeHeader, hb0, List.append_assoc]
  · refine ⟨decodedHeader (0x23 :: rest),
      read_header_spec (0x23 :: rest) (by simp; omega), ?_, ?_, ?_⟩
    · simp only [decodedHeader, List.headD_cons]; decide
    · simp only [decodedHeader, List.headD_cons]; decide
    · simp only [decodedHeader, List.headD_cons]; decide

theorem byte0_bit_packing_witness :
    (∃ tail, NtpPacketHeader.try_write_to_bytes requestHeader (List.replicate 48 0) =
        WriteResult.ok (((requestHeader.leap_indicator.val <<< 6) |||
          (requestHeader.version_number.val <<< 3) |||
          requestHeader.mode.val) :: tail) 48) ∧
    headerByte0 requestHeader = 0x23 ∧
    (∃ hdr, NtpPacketHeader.try_read_from_bytes (0x23 :: List.replicate 47 0) =
        Except.ok (hdr, 48) ∧
      hdr.leap_indicator.val = 0 ∧ hdr.version_number.val = 4 ∧ hdr.mode.val = 3) :=
  byte0_bit_packing requestHeader (List.replicate 48 0) (List.replicate 47 0)
    (by decide) (by decide) (by decide)

/-- Claim C6: for a `u8` value `v`, `Leap::try_from` succeeds exactly when
`v ≤ 3` and otherwise fails with the out-of-range error; `Version::try_from`
and `Mode::try_from` succeed exactly when `v ≤ 7` and otherwise fail with the
out-of-range error. -/
theorem try_from_range (v : Nat) (hv : v < 256) :
    ((∃ l, Leap.try_from v = Except.ok l) ↔ v ≤ 3) ∧
    (3 < v → Leap.try_from v = Except.error "Value out of range for leap") ∧
    ((∃ w, Version.try_from v = Except.ok w) ↔ v ≤ 7) ∧
    (7 < v → Version.try_from v = Except.error "Value out of range for version") ∧
    ((∃ m, Mode.try_from v = Except.ok m) ↔ v ≤ 7) ∧
    (7 < v → Mode.try_from v = Except.error "Value out of range for mode") := by
  refine ⟨⟨fun ⟨l, hl⟩ => ?_, fun h3 => ⟨⟨v⟩, ?_⟩⟩, fun h3 => ?_,
    ⟨fun ⟨w, hw⟩ => ?_, fun h7 => ⟨⟨v⟩, ?_⟩⟩, fun h7 => ?_,
    ⟨fun ⟨m, hm⟩ => ?_, fun h7 => ⟨⟨v⟩, ?_⟩⟩, fun h7 => ?_⟩
  · by_contra hc
    unfold Leap.try_from at hl
    rw [if_pos (by omega)] at hl
    exact Except.noConfusion hl
  · unfold Leap.try_from; rw [if_neg (by omega)]
  · unfold Leap.try_from; rw [if_pos (by omega)]
  · by_contra hc
    unfold Version.try_from at hw
    rw [if_pos (by omega)] at hw
    exact Except.noConfusion hw
  · unfold Version.try_from; rw [if_neg (by omega)]
  · unfold Version.try_from; rw [if_pos (by omega)]
  · by_contra hc
    unfold Mode.try_from at hm
    rw [if_pos (by omega)] at hm
    exact Except.noConfusion hm
  · unfold Mode.try_from; rw [if_neg (by omega)]
  · unfold Mode.try_from; rw [if_pos (by omega)]

theorem try_from_range_witness :
    (((∃ l, Leap.try_from 4 = Except.ok l) ↔ (4:Nat) ≤ 3) ∧
      (3 < 4 → Leap.try_from 4 = Except.error "Value out of range for leap") ∧
      ((∃ w, Version.try_from 4 = Except.ok w) ↔ (4:Nat) ≤ 7) ∧
      (7 < 4 → Version.try_from 4 = Except.error "Value out of range for version") ∧
      ((∃ m, Mode.try_from 4 = Except.ok m) ↔ (4:Nat) ≤ 7) ∧
      (7 < 4 → Mode.try_from 4 = Except.error "Value out of range for mode")) ∧
    (((∃ l, Leap.try_from 8 = Except.ok l) ↔ (8:Nat) ≤ 3) ∧
      (3 < 8 → Leap.try_from 8 = Except.error "Value out of range for leap") ∧
      ((∃ w, Version.try_from 8 = Except.ok w) ↔ (8:Nat) ≤ 7) ∧
      (7 < 8 → Version.try_from 8 = Except.error "Value out of range for version") ∧
      ((∃ m, Mode.try_from 8 = Except.ok m) ↔ (8:Nat) ≤ 7) ∧
      (7 < 8 → Mode.try_from 8 = Except.error "Value out of range for mode")) :=
  ⟨try_from_range 4 (by decide), try_from_range 8 (by decide)⟩

/-- Claim C7: `NtpShort::new` packs `(seconds << 16) | fraction` and
`NtpTimestamp::new` packs `(seconds << 32) | fraction` with no range check
beyond the 16- and 32-bit parameter widths; `NtpShort::new(1,0)` encodes to
`[0,1,0,0]` and `NtpTimestamp::new(100,500)` to `[0,0,0,100,0,0,1,244]`. -/
theorem fixed_point_packing (s f S F : Nat) (hs : s < 65536) (hf : f < 65536)
    (hS : S < 4294967296) (hF : F < 4294967296) :
    NtpShort.new s f = ⟨(s <<< 16) ||| f⟩ ∧
    NtpTimestamp.new S F = ⟨(S <<< 32) ||| F⟩ ∧
    NtpShort.try_write_to_bytes (NtpShort.new 1 0) [0, 0, 0, 0] =
      WriteResult.ok [0, 1, 0, 0] 4 ∧
    NtpTimestamp.try_write_to_bytes (NtpTimestamp.new 100 500) [0, 0, 0, 0, 0, 0, 0, 0] =
      WriteResult.ok [0, 0, 0, 100, 0, 0, 1, 244] 8 := by
  refine ⟨?_, ?_, by decide, by decide⟩
  · unfold NtpShort.new; rw [Nat.mod_eq_of_lt hs, Nat.mod_eq_of_lt hf]
  · unfold NtpTimestamp.new; rw [Nat.mod_eq_of_lt hS, Nat.mod_eq_of_lt hF]

theorem fixed_point_packing_witness :
    NtpShort.new 1 0 = ⟨(1 <<< 16) ||| 0⟩ ∧
    NtpTimestamp.new 100 500 = ⟨(100 <<< 32) ||| 500⟩ ∧
    NtpShort.try_write_to_bytes (NtpShort.new 1 0) [0, 0, 0, 0] =
      WriteResult.ok [0, 1, 0, 0] 4 ∧
    NtpTimestamp.try_write_to_bytes (NtpTimestamp.new 100 500) [0, 0, 0, 0, 0, 0, 0, 0] =
      WriteResult.ok [0, 0, 0, 100, 0, 0, 1, 244] 8 :=
  fixed_point_packing 1 0 100 500 (by decide) (by decide) (by decide) (by decide)

/-- Claim C8: the `ValueOutOfRange` branch for the decoded first byte is
unreachable: for every byte, the three masked-and-shifted fields are within
range and the `Leap`, `Version` and `Mode` constructors succeed on them. -/
theorem first_byte_masks_in_range (b : Nat) (hb : b < 256) :
    (b &&& 0b11000000) >>> 6 ≤ 3 ∧ (b &&& 0b00111000) >>> 3 ≤ 7 ∧
    b &&& 0b00000111 ≤ 7 ∧
    Leap.try_from ((b &&& 0b11000000) >>> 6) = Except.ok ⟨(b &&& 0b11000000) >>> 6⟩ ∧
    Version.try_from ((b &&& 0b00111000) >>> 3) = Except.ok ⟨(b &&& 0b00111000) >>> 3⟩ ∧
    Mode.try_from (b &&& 0b00000111) = Except.ok ⟨b &&& 0b00000111⟩ := by
  revert b
  decide

theorem first_byte_masks_in_range_witness :
    (0xff &&& 0b11000000) >>> 6 ≤ 3 ∧ (0xff &&& 0b00111000) >>> 3 ≤ 7 ∧
    0xff &&& 0b00000111 ≤ 7 ∧
    Leap.try_from ((0xff &&& 0b11000000) >>> 6) =
      Except.ok ⟨(0xff &&& 0b11000000) >>> 6⟩ ∧
    Version.try_from ((0xff &&& 0b00111000) >>> 3) =
      Except.ok ⟨(0xff &&& 0b00111000) >>> 3⟩ ∧
    Mode.try_from (0xff &&& 0b00000111) = Except.ok ⟨0xff &&& 0b00000111⟩ :=
  first_byte_masks_in_range 0xff (by decide)

/-- Claim C9: decoding never rejects packet content — on any buffer of at least
48 bytes `NtpPacketHeader::try_read_from_bytes` succeeds and consumes exactly
48 bytes. -/
theorem decode_needs_only_length (bytes : List Nat) (hlen : 48 ≤ bytes.length) :
    ∃ h, NtpPacketHeader.try_read_from_bytes bytes = Except.ok (h, 48) :=
  ⟨decodedHeader bytes, read_header_spec bytes hlen⟩

theorem decode_needs_only_length_witness :
    ∃ h, NtpPacketHeader.try_read_from_bytes (List.replicate 48 255) =
      Except.ok (h, 48) :=
  decode_needs_only_length (List.replicate 48 255) (by decide)

/-- Claim C10: re-encoding the header decoded from a wire buffer of at least
48 bytes reproduces the first 48 bytes of the buffer exactly. -/
theorem wire_image_roundtrip (bytes dest : List Nat) (hlen : 48 ≤ bytes.length)
    (hb : ∀ x ∈ bytes, x < 256) (hdest : 48 ≤ dest.length) :
    ∃ h, NtpPacketHeader.try_read_from_bytes bytes = Except.ok (h, 48) ∧
      NtpPacketHeader.try_write_to_bytes h dest =
        WriteResult.ok (bytes.take 48 ++ dest.drop 48) 48 := by
  refine ⟨decodedHeader bytes, read_header_spec bytes hlen, ?_⟩
  rw [write_header_spec _ _ (decodedHeader_refid_length bytes hlen) hdest,
    encodeHeader_decodedHeader bytes hlen hb]

theorem wire_image_roundtrip_witness :
    ∃ h, NtpPacketHeader.try_read_from_bytes (List.replicate 48 255) =
        Except.ok (h, 48) ∧
      NtpPacketHeader.try_write_to_bytes h (List.replicate 50 7) =
        WriteResult.ok ((List.replicate 48 255).take 48 ++
          (List.replicate 50 7).drop 48) 48 :=
  wire_image_roundtrip (List.replicate 48 255) (List.replicate 50 7)
    (by decide) (by decide) (by decide)

end DemoNtp
